import Mathlib

/-!
Shallow embedding of the finances-ia repository (personal finance tracker).

Sources embedded here:
* `src/src/contexts/FinanceContext.tsx` — the in-memory domain store and the
  rule evaluator (`checkBudgetAlerts`, `checkCategoryBudgetAlerts`,
  `checkWishAchievements`, `checkMonthlyExpenseDueDates`).
* `src/src/lib/storage.ts` — the localStorage fallback store
  (`saveToStorage` / `loadFromStorage` and the per-collection wrappers,
  including the `dayOfMonth` migration in `loadMonthlyIncomes` /
  `loadMonthlyExpenses`).
* `src/unnamed/part_007` — the Firebase persistence facade with its
  localStorage fallback for the monthly income/expense mutations.

Modelling conventions:
* JavaScript numbers are modelled as exact rationals (`ℚ`); the numeric
  literals of the source (`0.01`, `100`, `80`, …) are taken exactly.
  Division by zero, which in JavaScript yields `Infinity`/`NaN`, is modelled
  by the small `JsVal` type so the comparison semantics of the source
  (`Infinity >= 100` is true, `NaN >= 100` is false) are preserved.
* Notification `id`s come from `generateId()` (wall clock + randomness) and
  no claim depends on them, so the in-memory notification feed is modelled
  by the `Omit<Notification,'id'>` payload (`NotifData`); the stored
  `Notification` record of `storage.ts` keeps its `id` field.
* `new Date().toISOString()` timestamps are passed in as the `now : String`
  parameter of each check.
-/

namespace Finances

/-- Transaction.type union 'income' | 'expense' from src/types. -/
inductive TxKind where
  | income
  | expense
deriving DecidableEq

/-- Notification.type union 'info' | 'warning' | 'success' | 'error'. -/
inductive NotifType where
  | info
  | warning
  | success
  | error
deriving DecidableEq

/-- Transaction record from src/types (part_008). -/
structure Transaction where
  id : String
  type : TxKind
  category : String
  description : String
  amount : ℚ
  isFixed : Bool
  date : String
  notes : Option String
deriving DecidableEq

/-- MonthlyIncome record from src/types; dayOfMonth is documented 1-31
(0 models a legacy record whose dayOfMonth is falsy). -/
structure MonthlyIncome where
  id : String
  name : String
  amount : ℚ
  dayOfMonth : Nat
  isActive : Bool
deriving DecidableEq

/-- MonthlyExpense record from src/types. -/
structure MonthlyExpense where
  id : String
  name : String
  amount : ℚ
  dayOfMonth : Nat
  cancellationLink : String
  isActive : Bool
deriving DecidableEq

/-- Category record from src/types: `budget` and `maxBudget` are distinct
fields (the Categories page creates categories with budget 0 and the
user-entered limit in maxBudget). -/
structure Category where
  id : String
  name : String
  budget : ℚ
  maxBudget : ℚ
  color : String
deriving DecidableEq

/-- Wish record from src/types. -/
structure Wish where
  id : String
  name : String
  estimatedPrice : ℚ
  category : String
  priority : String
  status : String
  targetDate : String
  purchaseLink : String
  notes : Option String
deriving DecidableEq

/-- Notification record from src/types (with id, as persisted). -/
structure Notification where
  id : String
  title : String
  message : String
  type : NotifType
  timestamp : String
  isRead : Bool
deriving DecidableEq

/-- ShoppingItem record from src/types. -/
structure ShoppingItem where
  id : String
  name : String
  price : ℚ
  isPurchased : Bool
  createdAt : String
deriving DecidableEq

/-- The `Omit<Notification,'id'>` payload handed to `addNotification`;
the generated id is abstracted away (see module comment). -/
structure NotifData where
  title : String
  message : String
  type : NotifType
  timestamp : String
  isRead : Bool
deriving DecidableEq

/-- The in-memory collections of the FinanceProvider
(src/src/contexts/FinanceContext.tsx). -/
structure FinState where
  transactions : List Transaction
  monthlyIncomes : List MonthlyIncome
  monthlyExpenses : List MonthlyExpense
  categories : List Category
  wishes : List Wish
  notifications : List NotifData
  shoppingList : List ShoppingItem
deriving DecidableEq

/-- Two-digit zero padding used by the decimal formatters. -/
def decimalPad2 (n : Nat) : String :=
  if n < 10 then "0" ++ toString n else toString n

/-- JavaScript `x.toFixed(2)` on an exact rational: round the value to
cents, half away from zero, and print with two decimals. -/
def toFixed2 (q : ℚ) : String :=
  let sign := if q < 0 then "-" else ""
  let cents : Nat := (⌊|q| * 100 + 1 / 2⌋).toNat
  sign ++ toString (cents / 100) ++ "." ++ decimalPad2 (cents % 100)

/-- JavaScript `x.toFixed(1)` on an exact rational. -/
def toFixed1 (q : ℚ) : String :=
  let sign := if q < 0 then "-" else ""
  let tenths : Nat := (⌊|q| * 10 + 1 / 2⌋).toNat
  sign ++ toString (tenths / 10) ++ "." ++ toString (tenths % 10)

/-- Result of a JavaScript arithmetic expression that may divide by zero:
a finite number, an infinity, or NaN. -/
inductive JsVal where
  | num (q : ℚ)
  | posInf
  | negInf
  | nan
deriving DecidableEq

/-- JavaScript division `a / b`: finite quotient when `b` is nonzero,
`Infinity` / `-Infinity` / `NaN` when `b = 0`. -/
def jsDiv (a b : ℚ) : JsVal :=
  if b = 0 then (if 0 < a then .posInf else if a < 0 then .negInf else .nan)
  else .num (a / b)

/-- Multiplication of a JavaScript value by the positive literal 100
(as in `(spent / budget) * 100`). -/
def JsVal.mul100 : JsVal → JsVal
  | .num q => .num (q * 100)
  | .posInf => .posInf
  | .negInf => .negInf
  | .nan => .nan

/-- JavaScript comparison `v >= t` against a finite threshold:
`Infinity >= t` is true, `NaN >= t` is false. -/
def JsVal.geQ (v : JsVal) (t : ℚ) : Prop :=
  match v with
  | .num q => t ≤ q
  | .posInf => True
  | .negInf => False
  | .nan => False

instance (v : JsVal) (t : ℚ) : Decidable (v.geQ t) := by
  cases v <;> simp [JsVal.geQ] <;> infer_instance

/-- JavaScript `toFixed(1)` lifted to `JsVal` (`Infinity.toFixed` throws in
JS only for huge precision; for value `Infinity` it prints "Infinity"). -/
def JsVal.toFixed1 : JsVal → String
  | .num q => Finances.toFixed1 q
  | .posInf => "Infinity"
  | .negInf => "-Infinity"
  | .nan => "NaN"

/-- Expense sum of a category by name, as computed inline by
`checkBudgetAlerts`, `checkCategoryBudgetAlerts` and
`getCategoryExpenses`: filter expense transactions whose `category` equals
the name, then reduce over `amount` starting from 0. -/
def categoryExpensesOf (transactions : List Transaction) (name : String) : ℚ :=
  ((transactions.filter fun t => t.type == TxKind.expense && t.category == name).foldl
    (fun sum t => sum + t.amount) 0)

/-- Per-category body of `checkBudgetAlerts`
(FinanceContext.tsx lines 407-433): exceeded at percentage >= 100,
approaching at percentage >= 80. -/
def budgetAlertsFor (now : String) (transactions : List Transaction)
    (category : Category) : List NotifData :=
  let categoryExpenses := categoryExpensesOf transactions category.name
  let budgetPercentage := (jsDiv categoryExpenses category.budget).mul100
  if budgetPercentage.geQ 100 then
    [⟨"⚠️ Orçamento Excedido",
      "Categoria \"" ++ category.name ++ "\" excedeu o orçamento! Gasto: R$ "
        ++ toFixed2 categoryExpenses ++ " / R$ " ++ toFixed2 (category.budget),
      NotifType.warning, now, false⟩]
  else if budgetPercentage.geQ 80 then
    [⟨"⚠️ Orçamento Próximo do Limite",
      "Categoria \"" ++ category.name ++ "\" está em " ++ budgetPercentage.toFixed1
        ++ "% do orçamento (R$ " ++ toFixed2 categoryExpenses ++ " / R$ "
        ++ toFixed2 (category.budget) ++ ")",
      NotifType.warning, now, false⟩]
  else []

/-- `checkBudgetAlerts` (FinanceContext.tsx lines 407-433): forEach over
categories, appending each emitted notification to the feed. -/
def checkBudgetAlerts (now : String) (s : FinState) : FinState :=
  { s with notifications :=
      s.notifications ++ s.categories.flatMap (budgetAlertsFor now s.transactions) }

/-- Per-category body of `checkCategoryBudgetAlerts`
(FinanceContext.tsx lines 436-487): exact match within 0.01 first, then
exceeded, then the 90% tier, then the 75% tier. -/
def categoryBudgetAlertsFor (now : String) (transactions : List Transaction)
    (category : Category) : List NotifData :=
  let categoryExpenses := categoryExpensesOf transactions category.name
  let budgetPercentage := (jsDiv categoryExpenses category.budget).mul100
  let remainingBudget := category.budget - categoryExpenses
  if |categoryExpenses - category.budget| < 0.01 then
    [⟨"🎯 Orçamento Atingido!",
      "Categoria \"" ++ category.name ++ "\" atingiu exatamente o orçamento de R$ "
        ++ toFixed2 (category.budget) ++ "!",
      NotifType.success, now, false⟩]
  else if categoryExpenses > category.budget then
    let exceededAmount := categoryExpenses - category.budget
    [⟨"🚨 Orçamento Excedido!",
      "Categoria \"" ++ category.name ++ "\" excedeu o orçamento em R$ "
        ++ toFixed2 exceededAmount ++ "! (Gasto: R$ " ++ toFixed2 categoryExpenses
        ++ " / Orçamento: R$ " ++ toFixed2 (category.budget) ++ ")",
      NotifType.error, now, false⟩]
  else if budgetPercentage.geQ 90 then
    [⟨"⚠️ Orçamento Quase Esgotado",
      "Categoria \"" ++ category.name ++ "\" está em " ++ budgetPercentage.toFixed1
        ++ "% do orçamento! Restam apenas R$ " ++ toFixed2 remainingBudget,
      NotifType.warning, now, false⟩]
  else if budgetPercentage.geQ 75 then
    [⟨"📊 Orçamento em 75%",
      "Categoria \"" ++ category.name ++ "\" já gastou 75% do orçamento (R$ "
        ++ toFixed2 categoryExpenses ++ " / R$ " ++ toFixed2 (category.budget) ++ ")",
      NotifType.info, now, false⟩]
  else []

/-- `checkCategoryBudgetAlerts` (FinanceContext.tsx lines 436-487). -/
def checkCategoryBudgetAlerts (now : String) (s : FinState) : FinState :=
  { s with notifications :=
      s.notifications ++ s.categories.flatMap (categoryBudgetAlertsFor now s.transactions) }

/-- `getTotalIncomes` (FinanceContext.tsx): sum of income transaction amounts. -/
def getTotalIncomes (s : FinState) : ℚ :=
  (s.transactions.filter fun t => t.type == TxKind.income).foldl
    (fun sum t => sum + t.amount) 0

/-- `getTotalExpenses` (FinanceContext.tsx): sum of expense transaction amounts. -/
def getTotalExpenses (s : FinState) : ℚ :=
  (s.transactions.filter fun t => t.type == TxKind.expense).foldl
    (fun sum t => sum + t.amount) 0

/-- The `availableBalance` local of `checkWishAchievements`. -/
def availableBalance (s : FinState) : ℚ :=
  getTotalIncomes s - getTotalExpenses s

/-- Notification payload emitted by `checkWishAchievements` for one wish. -/
def achievableWishNotif (now : String) (wish : Wish) : NotifData :=
  ⟨"🎉 Desejo Pode Ser Realizado!",
    "Você tem saldo suficiente para realizar o desejo \"" ++ wish.name
      ++ "\" (R$ " ++ toFixed2 (wish.estimatedPrice) ++ ")",
    NotifType.success, now, false⟩

/-- `checkWishAchievements` (FinanceContext.tsx lines 490-506): for each
wish with sufficient balance and status other than achieved, append one
achievement notification. -/
def checkWishAchievements (now : String) (s : FinState) : FinState :=
  { s with notifications :=
      s.notifications ++ s.wishes.flatMap (fun wish =>
        if availableBalance s ≥ wish.estimatedPrice ∧ wish.status ≠ "achieved" then
          [achievableWishNotif now wish]
        else []) }

/-- Gregorian leap-year rule, as implemented by the JavaScript Date object. -/
def isLeapYear (y : Nat) : Bool :=
  y % 4 == 0 && (y % 100 != 0 || y % 400 == 0)

/-- Length of the 0-based month `m` of year `y` (JavaScript month indexing:
0 = January ... 11 = December). -/
def daysInMonth (y : Nat) (m : Nat) : Nat :=
  match m with
  | 0 => 31
  | 1 => if isLeapYear y then 29 else 28
  | 2 => 31
  | 3 => 30
  | 4 => 31
  | 5 => 30
  | 6 => 31
  | 7 => 31
  | 8 => 30
  | 9 => 31
  | 10 => 30
  | _ => 31

/-- Length of year `y` in days. -/
def daysInYear (y : Nat) : Nat :=
  if isLeapYear y then 366 else 365

/-- Day count of all years before year `y` (years counted from 0; the
epoch offset cancels in every time difference the source computes). -/
def daysBeforeYear : Nat → Nat
  | 0 => 0
  | n + 1 => daysBeforeYear n + daysInYear n

/-- Day count of the months of year `y` before month `m` (0-based). -/
def daysBeforeMonth (y : Nat) : Nat → Nat
  | 0 => 0
  | m + 1 => daysBeforeMonth y m + daysInMonth y m

/-- Day number of the first day of month `m` (0-based) of year `y`. -/
def monthStart (y m : Nat) : Nat :=
  daysBeforeYear y + daysBeforeMonth y m

/-- Milliseconds per civil day, the `1000 * 60 * 60 * 24` of the source. -/
def msPerDay : Int := 86400000

/-- A JavaScript `Date` in local time, decomposed the way the source reads
it: `getFullYear()`, `getMonth()` (0-based), `getDate()` (1-based), plus the
milliseconds elapsed since local midnight. Days are modelled as uniform
86,400,000 ms (fixed-offset local time, no daylight saving). -/
structure JsDate where
  year : Nat
  month : Nat
  day : Nat
  msOfDay : Nat
deriving DecidableEq

/-- Well-formedness of a decomposed date: month index below 12, day within
the month, time of day below 24h. -/
def JsDate.WF (d : JsDate) : Prop :=
  d.month < 12 ∧ 1 ≤ d.day ∧ d.day ≤ daysInMonth d.year d.month ∧ d.msOfDay < 86400000

instance (d : JsDate) : Decidable d.WF := by
  unfold JsDate.WF; infer_instance

/-- `date.getTime()` for a decomposed date. -/
def JsDate.getTime (d : JsDate) : Int :=
  ((monthStart d.year d.month : Int) + (d.day - 1 : Nat)) * msPerDay + d.msOfDay

/-- `new Date(year, month, dayArg).getTime()` with `month` possibly 12
(the source passes `today.getMonth() + 1`) and an arbitrary integer day
argument, which JavaScript normalizes as first-of-month plus
`dayArg - 1` days. -/
def jsDateValue (year month : Nat) (dayArg : Int) : Int :=
  ((monthStart (year + month / 12) (month % 12) : Int) + dayArg - 1) * msPerDay

/-- `Math.ceil(a / b)` for integer `a` and positive integer `b` (the
source divides an exact millisecond difference by `msPerDay`). -/
def mathCeilDiv (a b : Int) : Int :=
  -((-a).fdiv b)

/-- The `daysUntilDue` computation of `checkMonthlyExpenseDueDates`
(FinanceContext.tsx lines 516-528): same-month difference when the charge
day has not passed, otherwise days to the charge day of the next month, rounded up
from a millisecond difference. -/
def daysUntilDue (today : JsDate) (dayOfMonth : Nat) : Int :=
  if today.day ≤ dayOfMonth then
    (dayOfMonth : Int) - today.day
  else
    let nextMonth := jsDateValue today.year (today.month + 1) dayOfMonth
    mathCeilDiv (nextMonth - today.getTime) (1000 * 60 * 60 * 24)

/-- The four reminder payloads `checkMonthlyExpenseDueDates` can emit for
one active expense (FinanceContext.tsx lines 530-572): four independent
`if`s on `daysUntilDue` = 7, 3, 0, -1, appended in that order. -/
def dueNotifsFor (now : String) (today : JsDate) (expense : MonthlyExpense) :
    List NotifData :=
  let dayOfMonth := expense.dayOfMonth
  let d := daysUntilDue today dayOfMonth
  (if d = 7 then
    [⟨"📅 Despesa Mensal Vencendo em 7 Dias",
      "\"" ++ expense.name ++ "\" de R$ " ++ toFixed2 expense.amount
        ++ " vence em 7 dias (dia " ++ toString dayOfMonth ++ ")",
      NotifType.warning, now, false⟩]
   else []) ++
  (if d = 3 then
    [⟨"⚠️ Despesa Mensal Vencendo em 3 Dias",
      "\"" ++ expense.name ++ "\" de R$ " ++ toFixed2 expense.amount
        ++ " vence em 3 dias (dia " ++ toString dayOfMonth ++ ")",
      NotifType.warning, now, false⟩]
   else []) ++
  (if d = 0 then
    [⟨"🚨 Despesa Mensal Vence Hoje!",
      "\"" ++ expense.name ++ "\" de R$ " ++ toFixed2 expense.amount
        ++ " vence hoje (dia " ++ toString dayOfMonth ++ ")!",
      NotifType.error, now, false⟩]
   else []) ++
  (if d = -1 then
    [⟨"🔴 Despesa Mensal Vencida!",
      "\"" ++ expense.name ++ "\" de R$ " ++ toFixed2 expense.amount
        ++ " está vencida há 1 dia (venceu no dia " ++ toString dayOfMonth ++ ")!",
      NotifType.error, now, false⟩]
   else [])

/-- `checkMonthlyExpenseDueDates` (FinanceContext.tsx lines 509-574):
filter the active recurring expenses and append the due-date
reminders to the feed. -/
def checkMonthlyExpenseDueDates (now : String) (today : JsDate) (s : FinState) :
    FinState :=
  let active := s.monthlyExpenses.filter fun expense => expense.isActive
  { s with notifications := s.notifications ++ active.flatMap (dueNotifsFor now today) }

/-- Occurrences in a notification list that carry a given title. -/
def countTitle (t : String) (l : List NotifData) : Nat :=
  (l.filter fun n => n.title == t).length

/-- A parsed JSON document. `localStorage` holds the `JSON.stringify`
text of each collection; the text is modelled by its parse tree, so
`JSON.parse ∘ JSON.stringify` between save and load is the identity on
this type and the application-level content is carried by the
per-record encoders and decoders below. -/
inductive Json where
  | null
  | bool (b : Bool)
  | num (q : ℚ)
  | str (s : String)
  | arr (elements : List Json)
  | obj (fields : List (String × Json))

/-- First field of a JSON object with the given key (property access on a
parsed object). -/
def lookupField : List (String × Json) → String → Option Json
  | [], _ => none
  | (k, v) :: rest, key => if k == key then some v else lookupField rest key

/-- Overwrite a field if present, append it otherwise — the effect of the
spread-with-override `\x7b ...record, dayOfMonth: 5 \x7d` on a parsed object. -/
def setField (fields : List (String × Json)) (key : String) (v : Json) :
    List (String × Json) :=
  if fields.any fun p => p.1 == key then
    fields.map fun p => if p.1 == key then (key, v) else p
  else fields ++ [(key, v)]

/-- JavaScript falsiness of a possibly-missing property value, as tested by
`!income.dayOfMonth` / `!expense.dayOfMonth` in storage.ts. -/
def jsonFalsy : Option Json → Bool
  | none => true
  | some .null => true
  | some (.bool b) => !b
  | some (.num q) => q == 0
  | some (.str s) => s == ""
  | some _ => false

/-- The browser-local key-value store: namespaced string keys, each holding
one serialized document. -/
def Store := List (String × Json)

/-- `localStorage.setItem`. -/
def setItem (store : Store) (key : String) (value : Json) : Store :=
  (key, value) :: List.filter (fun p => p.1 != key) store

/-- `localStorage.getItem` (parsed form; `none` is a missing key). -/
def getItem (store : Store) (key : String) : Option Json :=
  lookupField store key

/-- `saveToStorage` (storage.ts lines 14-20): stringify and store under the
key. -/
def saveToStorage (store : Store) (key : String) (data : Json) : Store :=
  setItem store key data

/-- `loadFromStorage` (storage.ts lines 22-30): parse the stored item, or
return the default when the key is absent. -/
def loadFromStorage (store : Store) (key : String) (defaultValue : Json) : Json :=
  (getItem store key).getD defaultValue

/-- String form of the transaction kind union. -/
def txKindStr : TxKind → String
  | .income => "income"
  | .expense => "expense"

/-- Inverse of `txKindStr` on the two legal union values. -/
def decodeTxKind (s : String) : Option TxKind :=
  if s == "income" then some .income
  else if s == "expense" then some .expense
  else none

/-- A JSON number read back as a `Nat` field. -/
def natFromQ (q : ℚ) : Option Nat :=
  if 0 ≤ q.num && q.den == 1 then some q.num.toNat else none

/-- Serialized form of a `Transaction` (optional `notes` is dropped when
absent, as `JSON.stringify` drops `undefined` properties). -/
def encodeTransaction (t : Transaction) : Json :=
  .obj ([("id", .str t.id), ("type", .str (txKindStr t.type)),
    ("category", .str t.category), ("description", .str t.description),
    ("amount", .num t.amount), ("isFixed", .bool t.isFixed),
    ("date", .str t.date)] ++
    (match t.notes with
     | some n => [("notes", .str n)]
     | none => []))

/-- Reading a serialized `Transaction` back (the source performs an
unchecked cast after `JSON.parse`; the decoder is defined on exactly the
documents `encodeTransaction` produces). -/
def decodeTransaction : Json → Option Transaction
  | .obj (("id", .str id) :: ("type", .str ty) :: ("category", .str cat) ::
      ("description", .str de) :: ("amount", .num am) :: ("isFixed", .bool fx) ::
      ("date", .str dt) :: rest) =>
    match decodeTxKind ty, rest with
    | some k, [] => some ⟨id, k, cat, de, am, fx, dt, none⟩
    | some k, [("notes", .str n)] => some ⟨id, k, cat, de, am, fx, dt, some n⟩
    | _, _ => none
  | _ => none

/-- Serialized form of a `MonthlyIncome`. -/
def encodeMonthlyIncome (i : MonthlyIncome) : Json :=
  .obj [("id", .str i.id), ("name", .str i.name), ("amount", .num i.amount),
    ("dayOfMonth", .num i.dayOfMonth), ("isActive", .bool i.isActive)]

/-- Reading a serialized `MonthlyIncome` back. -/
def decodeMonthlyIncome : Json → Option MonthlyIncome
  | .obj [("id", .str id), ("name", .str nm), ("amount", .num am),
      ("dayOfMonth", .num dq), ("isActive", .bool act)] =>
    (natFromQ dq).map fun d => ⟨id, nm, am, d, act⟩
  | _ => none

/-- Serialized form of a `MonthlyExpense`. -/
def encodeMonthlyExpense (e : MonthlyExpense) : Json :=
  .obj [("id", .str e.id), ("name", .str e.name), ("amount", .num e.amount),
    ("dayOfMonth", .num e.dayOfMonth), ("cancellationLink", .str e.cancellationLink),
    ("isActive", .bool e.isActive)]

/-- Reading a serialized `MonthlyExpense` back. -/
def decodeMonthlyExpense : Json → Option MonthlyExpense
  | .obj [("id", .str id), ("name", .str nm), ("amount", .num am),
      ("dayOfMonth", .num dq), ("cancellationLink", .str cl),
      ("isActive", .bool act)] =>
    (natFromQ dq).map fun d => ⟨id, nm, am, d, cl, act⟩
  | _ => none

/-- Serialized form of a `Category`. -/
def encodeCategory (c : Category) : Json :=
  .obj [("id", .str c.id), ("name", .str c.name), ("budget", .num c.budget),
    ("maxBudget", .num c.maxBudget), ("color", .str c.color)]

/-- Reading a serialized `Category` back. -/
def decodeCategory : Json → Option Category
  | .obj [("id", .str id), ("name", .str nm), ("budget", .num b),
      ("maxBudget", .num mb), ("color", .str col)] =>
    some ⟨id, nm, b, mb, col⟩
  | _ => none

/-- Serialized form of a `Wish`. -/
def encodeWish (w : Wish) : Json :=
  .obj ([("id", .str w.id), ("name", .str w.name),
    ("estimatedPrice", .num w.estimatedPrice), ("category", .str w.category),
    ("priority", .str w.priority), ("status", .str w.status),
    ("targetDate", .str w.targetDate), ("purchaseLink", .str w.purchaseLink)] ++
    (match w.notes with
     | some n => [("notes", .str n)]
     | none => []))

/-- Reading a serialized `Wish` back. -/
def decodeWish : Json → Option Wish
  | .obj (("id", .str id) :: ("name", .str nm) :: ("estimatedPrice", .num ep) ::
      ("category", .str cat) :: ("priority", .str pr) :: ("status", .str st) ::
      ("targetDate", .str td) :: ("purchaseLink", .str pl) :: rest) =>
    match rest with
    | [] => some ⟨id, nm, ep, cat, pr, st, td, pl, none⟩
    | [("notes", .str n)] => some ⟨id, nm, ep, cat, pr, st, td, pl, some n⟩
    | _ => none
  | _ => none

/-- String form of the notification severity union. -/
def notifTypeStr : NotifType → String
  | .info => "info"
  | .warning => "warning"
  | .success => "success"
  | .error => "error"

/-- Inverse of `notifTypeStr` on the four legal union values. -/
def decodeNotifType (s : String) : Option NotifType :=
  if s == "info" then some .info
  else if s == "warning" then some .warning
  else if s == "success" then some .success
  else if s == "error" then some .error
  else none

/-- Serialized form of a `Notification`. -/
def encodeNotification (n : Notification) : Json :=
  .obj [("id", .str n.id), ("title", .str n.title), ("message", .str n.message),
    ("type", .str (notifTypeStr n.type)), ("timestamp", .str n.timestamp),
    ("isRead", .bool n.isRead)]

/-- Reading a serialized `Notification` back. -/
def decodeNotification : Json → Option Notification
  | .obj [("id", .str id), ("title", .str ti), ("message", .str msg),
      ("type", .str ty), ("timestamp", .str ts), ("isRead", .bool rd)] =>
    (decodeNotifType ty).map fun t => ⟨id, ti, msg, t, ts, rd⟩
  | _ => none

/-- Serialized form of a `ShoppingItem`. -/
def encodeShoppingItem (s : ShoppingItem) : Json :=
  .obj [("id", .str s.id), ("name", .str s.name), ("price", .num s.price),
    ("isPurchased", .bool s.isPurchased), ("createdAt", .str s.createdAt)]

/-- Reading a serialized `ShoppingItem` back. -/
def decodeShoppingItem : Json → Option ShoppingItem
  | .obj [("id", .str id), ("name", .str nm), ("price", .num pr),
      ("isPurchased", .bool pu), ("createdAt", .str ca)] =>
    some ⟨id, nm, pr, pu, ca⟩
  | _ => none

/-- The `dayOfMonth` migration applied to one parsed record by
`loadMonthlyIncomes` / `loadMonthlyExpenses` (storage.ts lines 45-103):
when the property is falsy, override it with the default day. -/
def migrateDayOfMonth (defaultDay : ℚ) (j : Json) : Json :=
  match j with
  | .obj fields =>
    if jsonFalsy (lookupField fields "dayOfMonth") then
      .obj (setField fields "dayOfMonth" (.num defaultDay))
    else j
  | _ => j

/-- `saveTransactions` (storage.ts). -/
def saveTransactions (store : Store) (transactions : List Transaction) : Store :=
  saveToStorage store "finances-transactions" (.arr (transactions.map encodeTransaction))

/-- `loadTransactions` (storage.ts). -/
def loadTransactions (store : Store) : List Transaction :=
  match loadFromStorage store "finances-transactions" (.arr []) with
  | .arr xs => xs.filterMap decodeTransaction
  | _ => []

/-- `saveMonthlyIncomes` (storage.ts). -/
def saveMonthlyIncomes (store : Store) (monthlyIncomes : List MonthlyIncome) : Store :=
  saveToStorage store "finances-monthly-incomes"
    (.arr (monthlyIncomes.map encodeMonthlyIncome))

/-- `loadMonthlyIncomes` (storage.ts lines 45-71): parse, migrate falsy
`dayOfMonth` to the default day 5, and return the migrated collection (the
self-healing write-back of the migrated data does not affect the returned
value and is omitted). -/
def loadMonthlyIncomes (store : Store) : List MonthlyIncome :=
  let incomes :=
    match loadFromStorage store "finances-monthly-incomes" (.arr []) with
    | .arr xs => xs
    | _ => []
  (incomes.map (migrateDayOfMonth 5)).filterMap decodeMonthlyIncome

/-- `saveMonthlyExpenses` (storage.ts). -/
def saveMonthlyExpenses (store : Store) (monthlyExpenses : List MonthlyExpense) : Store :=
  saveToStorage store "finances-monthly-expenses"
    (.arr (monthlyExpenses.map encodeMonthlyExpense))

/-- `loadMonthlyExpenses` (storage.ts lines 77-103): parse, migrate falsy
`dayOfMonth` to the default day 15, and return the migrated collection. -/
def loadMonthlyExpenses (store : Store) : List MonthlyExpense :=
  let expenses :=
    match loadFromStorage store "finances-monthly-expenses" (.arr []) with
    | .arr xs => xs
    | _ => []
  (expenses.map (migrateDayOfMonth 15)).filterMap decodeMonthlyExpense

/-- `saveCategories` (storage.ts). -/
def saveCategories (store : Store) (categories : List Category) : Store :=
  saveToStorage store "finances-categories" (.arr (categories.map encodeCategory))

/-- `loadCategories` (storage.ts). -/
def loadCategories (store : Store) : List Category :=
  match loadFromStorage store "finances-categories" (.arr []) with
  | .arr xs => xs.filterMap decodeCategory
  | _ => []

/-- `saveWishes` (storage.ts). -/
def saveWishes (store : Store) (wishes : List Wish) : Store :=
  saveToStorage store "finances-wishes" (.arr (wishes.map encodeWish))

/-- `loadWishes` (storage.ts). -/
def loadWishes (store : Store) : List Wish :=
  match loadFromStorage store "finances-wishes" (.arr []) with
  | .arr xs => xs.filterMap decodeWish
  | _ => []

/-- `saveNotifications` (storage.ts). -/
def saveNotifications (store : Store) (notifications : List Notification) : Store :=
  saveToStorage store "finances-notifications" (.arr (notifications.map encodeNotification))

/-- `loadNotifications` (storage.ts). -/
def loadNotifications (store : Store) : List Notification :=
  match loadFromStorage store "finances-notifications" (.arr []) with
  | .arr xs => xs.filterMap decodeNotification
  | _ => []

/-- `saveShoppingList` (storage.ts). -/
def saveShoppingList (store : Store) (shoppingList : List ShoppingItem) : Store :=
  saveToStorage store "finances-shopping-list" (.arr (shoppingList.map encodeShoppingItem))

/-- `loadShoppingList` (storage.ts). -/
def loadShoppingList (store : Store) : List ShoppingItem :=
  match loadFromStorage store "finances-shopping-list" (.arr []) with
  | .arr xs => xs.filterMap decodeShoppingItem
  | _ => []

/-- Environment of the Firebase facade (part_007): whether initialization
succeeded (`isFirebaseAvailable`, `db` non-null) and whether the attempted
cloud call rejects. -/
structure FirebaseEnv where
  isFirebaseAvailable : Bool
  dbInit : Bool
  cloudThrows : Bool
deriving DecidableEq

/-- Outcome of one facade mutation: the browser-local store, the cloud
collection it targets, the local change events dispatched via
`dispatchStorageChangeEvent`, and whether the call rejected to the caller. -/
structure FBResult (κ : Type) where
  localStore : Store
  cloud : κ
  events : List String
  threw : Bool

/-- Firestore `setDoc(doc(db, coll, id), x)`: overwrite the document with
this id, or create it. -/
def setDocById {α : Type} (getId : α → String) (docs : List α) (x : α) : List α :=
  if docs.any fun d => getId d == getId x then
    docs.map fun d => if getId d == getId x then x else d
  else docs ++ [x]

/-- Replace the first record with the given id, as the
`findIndex` / index-assignment pair of the fallback paths does. -/
def updateFirstById {α : Type} (getId : α → String) (l : List α) (id : String)
    (f : α → α) : List α :=
  match l with
  | [] => []
  | x :: rest =>
    if getId x == id then f x :: rest else x :: updateFirstById getId rest id f

/-- `Partial<Omit<MonthlyIncome,'id'>>` update payload. -/
structure MonthlyIncomePatch where
  name : Option String
  amount : Option ℚ
  dayOfMonth : Option Nat
  isActive : Option Bool

/-- Spread-merge `\x7b ...income, ...data \x7d` of a patch into a record. -/
def applyIncomePatch (i : MonthlyIncome) (p : MonthlyIncomePatch) : MonthlyIncome :=
  { i with
    name := p.name.getD i.name
    amount := p.amount.getD i.amount
    dayOfMonth := p.dayOfMonth.getD i.dayOfMonth
    isActive := p.isActive.getD i.isActive }

/-- `Partial<Omit<MonthlyExpense,'id'>>` update payload. -/
structure MonthlyExpensePatch where
  name : Option String
  amount : Option ℚ
  dayOfMonth : Option Nat
  cancellationLink : Option String
  isActive : Option Bool

/-- Spread-merge of a patch into a `MonthlyExpense`. -/
def applyExpensePatch (e : MonthlyExpense) (p : MonthlyExpensePatch) : MonthlyExpense :=
  { e with
    name := p.name.getD e.name
    amount := p.amount.getD e.amount
    dayOfMonth := p.dayOfMonth.getD e.dayOfMonth
    cancellationLink := p.cancellationLink.getD e.cancellationLink
    isActive := p.isActive.getD e.isActive }

/-- `addTransaction` facade variant (part_007 lines 818-831): when `db` is
null it warns and returns without touching local storage; otherwise the
cloud write is awaited with no catch, so a rejection propagates. -/
def fbAddTransaction (env : FirebaseEnv) (st : Store) (cloud : List Transaction)
    (newTransaction : Transaction) : FBResult (List Transaction) :=
  if !env.dbInit then ⟨st, cloud, [], false⟩
  else if env.cloudThrows then ⟨st, cloud, [], true⟩
  else ⟨st, setDocById Transaction.id cloud newTransaction, [], false⟩

/-- `addMonthlyIncome` facade variant (part_007 lines 833-858): fallback to
localStorage when Firebase is unavailable or the cloud write throws, with a
`finances-monthly-incomes` change event. -/
def fbAddMonthlyIncome (env : FirebaseEnv) (st : Store) (cloud : List MonthlyIncome)
    (newIncome : MonthlyIncome) : FBResult (List MonthlyIncome) :=
  if !env.isFirebaseAvailable || !env.dbInit then
    ⟨saveMonthlyIncomes st (loadMonthlyIncomes st ++ [newIncome]), cloud,
      ["finances-monthly-incomes"], false⟩
  else if env.cloudThrows then
    ⟨saveMonthlyIncomes st (loadMonthlyIncomes st ++ [newIncome]), cloud,
      ["finances-monthly-incomes"], false⟩
  else ⟨st, setDocById MonthlyIncome.id cloud newIncome, [], false⟩

/-- `addMonthlyExpense` facade variant (part_007 lines 860-885). -/
def fbAddMonthlyExpense (env : FirebaseEnv) (st : Store) (cloud : List MonthlyExpense)
    (newExpense : MonthlyExpense) : FBResult (List MonthlyExpense) :=
  if !env.isFirebaseAvailable || !env.dbInit then
    ⟨saveMonthlyExpenses st (loadMonthlyExpenses st ++ [newExpense]), cloud,
      ["finances-monthly-expenses"], false⟩
  else if env.cloudThrows then
    ⟨saveMonthlyExpenses st (loadMonthlyExpenses st ++ [newExpense]), cloud,
      ["finances-monthly-expenses"], false⟩
  else ⟨st, setDocById MonthlyExpense.id cloud newExpense, [], false⟩

/-- Local fallback body shared by both paths of `updateMonthlyIncome`
(part_007 lines 940-964): replay the update against localStorage, saving
and dispatching only when the id is found. -/
def localUpdateMonthlyIncome (st : Store) (id : String) (data : MonthlyIncomePatch) :
    Store × List String :=
  let incomes := loadMonthlyIncomes st
  if incomes.any fun i => i.id == id then
    (saveMonthlyIncomes st
      (updateFirstById MonthlyIncome.id incomes id fun i => applyIncomePatch i data),
      ["finances-monthly-incomes"])
  else (st, [])

/-- `updateMonthlyIncome` facade variant (part_007 lines 940-964). -/
def fbUpdateMonthlyIncome (env : FirebaseEnv) (st : Store) (cloud : List MonthlyIncome)
    (id : String) (data : MonthlyIncomePatch) : FBResult (List MonthlyIncome) :=
  if !env.isFirebaseAvailable || !env.dbInit then
    let r := localUpdateMonthlyIncome st id data
    ⟨r.1, cloud, r.2, false⟩
  else if env.cloudThrows then
    let r := localUpdateMonthlyIncome st id data
    ⟨r.1, cloud, r.2, false⟩
  else
    ⟨st, cloud.map fun i => if i.id == id then applyIncomePatch i data else i, [], false⟩

/-- Local fallback body of `updateMonthlyExpense` (part_007 lines 966-990). -/
def localUpdateMonthlyExpense (st : Store) (id : String) (data : MonthlyExpensePatch) :
    Store × List String :=
  let expenses := loadMonthlyExpenses st
  if expenses.any fun e => e.id == id then
    (saveMonthlyExpenses st
      (updateFirstById MonthlyExpense.id expenses id fun e => applyExpensePatch e data),
      ["finances-monthly-expenses"])
  else (st, [])

/-- `updateMonthlyExpense` facade variant (part_007 lines 966-990). -/
def fbUpdateMonthlyExpense (env : FirebaseEnv) (st : Store) (cloud : List MonthlyExpense)
    (id : String) (data : MonthlyExpensePatch) : FBResult (List MonthlyExpense) :=
  if !env.isFirebaseAvailable || !env.dbInit then
    let r := localUpdateMonthlyExpense st id data
    ⟨r.1, cloud, r.2, false⟩
  else if env.cloudThrows then
    let r := localUpdateMonthlyExpense st id data
    ⟨r.1, cloud, r.2, false⟩
  else
    ⟨st, cloud.map fun e => if e.id == id then applyExpensePatch e data else e, [], false⟩

/-- `deleteMonthlyIncome` facade variant (part_007 lines 1018-1035): the
fallback filters the collection, saves and dispatches unconditionally. -/
def fbDeleteMonthlyIncome (env : FirebaseEnv) (st : Store) (cloud : List MonthlyIncome)
    (id : String) : FBResult (List MonthlyIncome) :=
  if !env.isFirebaseAvailable || !env.dbInit then
    ⟨saveMonthlyIncomes st ((loadMonthlyIncomes st).filter fun i => i.id != id), cloud,
      ["finances-monthly-incomes"], false⟩
  else if env.cloudThrows then
    ⟨saveMonthlyIncomes st ((loadMonthlyIncomes st).filter fun i => i.id != id), cloud,
      ["finances-monthly-incomes"], false⟩
  else ⟨st, cloud.filter fun i => i.id != id, [], false⟩

/-- `deleteMonthlyExpense` facade variant (part_007 lines 1037-1054). -/
def fbDeleteMonthlyExpense (env : FirebaseEnv) (st : Store) (cloud : List MonthlyExpense)
    (id : String) : FBResult (List MonthlyExpense) :=
  if !env.isFirebaseAvailable || !env.dbInit then
    ⟨saveMonthlyExpenses st ((loadMonthlyExpenses st).filter fun e => e.id != id), cloud,
      ["finances-monthly-expenses"], false⟩
  else if env.cloudThrows then
    ⟨saveMonthlyExpenses st ((loadMonthlyExpenses st).filter fun e => e.id != id), cloud,
      ["finances-monthly-expenses"], false⟩
  else ⟨st, cloud.filter fun e => e.id != id, [], false⟩

/-! Helper lemmas shared by the claim theorems. -/

/-- Division with a nonzero denominator stays finite. -/
theorem jsDiv_of_ne {a b : ℚ} (h : b ≠ 0) : jsDiv a b = .num (a / b) := by
  simp [jsDiv, h]

/-- Scaling by 100 preserves a finite value. -/
theorem mul100_num (q : ℚ) : (JsVal.num q).mul100 = .num (q * 100) := rfl

/-- The percentage comparison against a finite value is a plain rational
comparison. -/
theorem geQ_num (q t : ℚ) : (JsVal.num q).geQ t ↔ t ≤ q := Iff.rfl

/-- The two transaction kinds compare unequal, in both orders. -/
theorem txKind_beq_false :
    (TxKind.income == TxKind.expense) = false ∧
    (TxKind.expense == TxKind.income) = false := ⟨rfl, rfl⟩

/-! Claim C10: the exact-match branch of checkCategoryBudgetAlerts. -/

/-- C10: for every category whose expense sum S and budget B satisfy
|S - B| < 0.01 (including a fresh category with budget 0 and no expenses),
one call to checkCategoryBudgetAlerts emits exactly the single
budget-exactly-reached success notification for that category, regardless
of the exceeded / 90% / 75% conditions (the exact-match branch is tested
first). -/
theorem categoryBudgetAlerts_exactMatch (now : String)
    (transactions : List Transaction) (category : Category)
    (h : |categoryExpensesOf transactions category.name - category.budget| < 0.01) :
    (categoryBudgetAlertsFor now transactions category).map (fun n => (n.title, n.type))
      = [("🎯 Orçamento Atingido!", NotifType.success)] ∧
    (checkCategoryBudgetAlerts now
        { transactions := transactions, monthlyIncomes := [], monthlyExpenses := [],
          categories := [category], wishes := [], notifications := [],
          shoppingList := [] }).notifications
      = categoryBudgetAlertsFor now transactions category := by
  constructor
  · simp only [categoryBudgetAlertsFor]
    rw [if_pos h]
    rfl
  · simp [checkCategoryBudgetAlerts]

/-- Witness for C10 at the concrete newly-created category (budget 0,
maxBudget 500, no expense transactions): S = B = 0. -/
theorem categoryBudgetAlerts_exactMatch_witness :
    |categoryExpensesOf [] "Nova" - (Category.mk "c1" "Nova" 0 500 "blue").budget| < 0.01 ∧
    (categoryBudgetAlertsFor "t0" [] (Category.mk "c1" "Nova" 0 500 "blue")).map
        (fun n => (n.title, n.type))
      = [("🎯 Orçamento Atingido!", NotifType.success)] := by
  refine ⟨by norm_num [categoryExpensesOf], ?_⟩
  exact (categoryBudgetAlerts_exactMatch "t0" [] (Category.mk "c1" "Nova" 0 500 "blue")
    (by norm_num [categoryExpensesOf])).1

/-! Claim C2: the two tiers of checkBudgetAlerts. -/

/-- C2: for a category with budget B > 0 and expense sum S, one call to
checkBudgetAlerts emits exactly one budget-exceeded warning when S/B >= 1,
exactly one approaching-limit warning when 0.8 <= S/B < 1, and nothing for
that category otherwise; a call on a one-category state appends exactly
that category's alerts. -/
theorem budgetAlerts_tiers (now : String) (transactions : List Transaction)
    (category : Category) (hB : 0 < category.budget) :
    (1 ≤ categoryExpensesOf transactions category.name / category.budget →
      (budgetAlertsFor now transactions category).map (fun n => (n.title, n.type))
        = [("⚠️ Orçamento Excedido", NotifType.warning)]) ∧
    (0.8 ≤ categoryExpensesOf transactions category.name / category.budget →
      categoryExpensesOf transactions category.name / category.budget < 1 →
      (budgetAlertsFor now transactions category).map (fun n => (n.title, n.type))
        = [("⚠️ Orçamento Próximo do Limite", NotifType.warning)]) ∧
    (categoryExpensesOf transactions category.name / category.budget < 0.8 →
      budgetAlertsFor now transactions category = []) ∧
    (checkBudgetAlerts now
        { transactions := transactions, monthlyIncomes := [], monthlyExpenses := [],
          categories := [category], wishes := [], notifications := [],
          shoppingList := [] }).notifications
      = budgetAlertsFor now transactions category := by
  have hBne : category.budget ≠ 0 := ne_of_gt hB
  refine ⟨?_, ?_, ?_, by simp [checkBudgetAlerts]⟩ <;>
    simp only [budgetAlertsFor, jsDiv_of_ne hBne, mul100_num, geQ_num]
  · intro h
    rw [if_pos (by linarith)]
    rfl
  · intro h1 h2
    rw [if_neg (by intro hc; linarith), if_pos (by linarith)]
    rfl
  · intro h
    rw [if_neg (by intro hc; linarith), if_neg (by intro hc; linarith)]

/-- Witness for C2 at a concrete category with budget 100 and one expense
transaction of 100 (S/B = 1, the exceeded tier). -/
theorem budgetAlerts_tiers_witness :
    0 < (Category.mk "c2" "Food" 100 100 "blue").budget ∧
    (1 : ℚ) ≤ categoryExpensesOf
        [Transaction.mk "t2" TxKind.expense "Food" "d" 100 false "2024-01-01" none]
        "Food" / 100 ∧
    (budgetAlertsFor "t0"
        [Transaction.mk "t2" TxKind.expense "Food" "d" 100 false "2024-01-01" none]
        (Category.mk "c2" "Food" 100 100 "blue")).map (fun n => (n.title, n.type))
      = [("⚠️ Orçamento Excedido", NotifType.warning)] := by
  refine ⟨by norm_num, by norm_num [categoryExpensesOf], ?_⟩
  exact (budgetAlerts_tiers "t0"
    [Transaction.mk "t2" TxKind.expense "Food" "d" 100 false "2024-01-01" none]
    (Category.mk "c2" "Food" 100 100 "blue") (by norm_num)).1
    (by norm_num [categoryExpensesOf])

/-! Claim C3: the 75/90 progress tiers of checkCategoryBudgetAlerts.
The claim as stated fails when S is within 0.01 of B, because the
exact-match branch runs first; the amended claim excludes that window. -/

/-- C3 counterexample: budget 100 and a single expense of 99.995 satisfy
0.75B <= S < B and S/B >= 0.9, yet the call emits the exactly-reached
success notification and no 90% almost-exhausted warning. -/
theorem categoryBudgetAlerts_nearLimit_counterexample :
    (0 : ℚ) < (Category.mk "c3" "Lazer" 100 100 "blue").budget ∧
    3 / 4 * (100 : ℚ) ≤ categoryExpensesOf
        [Transaction.mk "t3" TxKind.expense "Lazer" "d" (19999 / 200) false
          "2024-01-02" none] "Lazer" ∧
    categoryExpensesOf
        [Transaction.mk "t3" TxKind.expense "Lazer" "d" (19999 / 200) false
          "2024-01-02" none] "Lazer" < 100 ∧
    (9 : ℚ) / 10 ≤ categoryExpensesOf
        [Transaction.mk "t3" TxKind.expense "Lazer" "d" (19999 / 200) false
          "2024-01-02" none] "Lazer" / 100 ∧
    countTitle "⚠️ Orçamento Quase Esgotado"
        (categoryBudgetAlertsFor "t0"
          [Transaction.mk "t3" TxKind.expense "Lazer" "d" (19999 / 200) false
            "2024-01-02" none]
          (Category.mk "c3" "Lazer" 100 100 "blue")) = 0 ∧
    (categoryBudgetAlertsFor "t0"
        [Transaction.mk "t3" TxKind.expense "Lazer" "d" (19999 / 200) false
          "2024-01-02" none]
        (Category.mk "c3" "Lazer" 100 100 "blue")).map (fun n => n.title)
      = ["🎯 Orçamento Atingido!"] := by
  refine ⟨by norm_num, by norm_num [categoryExpensesOf], by norm_num [categoryExpensesOf],
    by norm_num [categoryExpensesOf], ?_, ?_⟩ <;>
  · norm_num [categoryBudgetAlertsFor, categoryExpensesOf, jsDiv, JsVal.mul100,
      JsVal.geQ, countTitle]
    rw [if_pos (show |(1 : ℚ) / 200| < 1 / 100 by rw [abs_of_nonneg] <;> norm_num)]
    simp

/-- C3 amended: for a category with budget B > 0 and expense sum S with
0.75B <= S < B and additionally B - S >= 0.01 (outside the exact-match
window), one call emits exactly one progress notification at the correct
tier: the 90% almost-exhausted warning when S/B >= 0.9, otherwise the 75%
info notification. -/
theorem categoryBudgetAlerts_progressTiers (now : String)
    (transactions : List Transaction) (category : Category)
    (hB : 0 < category.budget)
    (h75 : 3 / 4 * category.budget ≤ categoryExpensesOf transactions category.name)
    (hlt : categoryExpensesOf transactions category.name < category.budget)
    (hgap : 0.01 ≤ category.budget - categoryExpensesOf transactions category.name) :
    (9 / 10 ≤ categoryExpensesOf transactions category.name / category.budget →
      (categoryBudgetAlertsFor now transactions category).map (fun n => (n.title, n.type))
        = [("⚠️ Orçamento Quase Esgotado", NotifType.warning)]) ∧
    (categoryExpensesOf transactions category.name / category.budget < 9 / 10 →
      (categoryBudgetAlertsFor now transactions category).map (fun n => (n.title, n.type))
        = [("📊 Orçamento em 75%", NotifType.info)]) := by
  have hBne : category.budget ≠ 0 := ne_of_gt hB
  have habs : ¬(|categoryExpensesOf transactions category.name - category.budget| < 0.01) := by
    rw [abs_sub_comm, abs_of_nonneg (by linarith)]
    linarith
  have h75q : (75 : ℚ) ≤ categoryExpensesOf transactions category.name /
      category.budget * 100 := by
    have : 3 / 4 ≤ categoryExpensesOf transactions category.name / category.budget :=
      (le_div_iff₀ hB).mpr (by linarith)
    linarith
  constructor <;> intro h <;>
    simp only [categoryBudgetAlertsFor, jsDiv_of_ne hBne, mul100_num, geQ_num] <;>
    rw [if_neg habs, if_neg (not_lt.mpr (le_of_lt hlt))]
  · rw [if_pos (by linarith)]
    rfl
  · rw [if_neg (by intro hc; linarith), if_pos h75q]
    rfl

/-- Witness for C3 amended at budget 100 and a single expense of 90
(S/B = 0.9, the 90% tier). -/
theorem categoryBudgetAlerts_progressTiers_witness :
    ((0 : ℚ) < 100 ∧
      3 / 4 * (100 : ℚ) ≤ categoryExpensesOf
        [Transaction.mk "t5" TxKind.expense "Saúde" "d" 90 false "2024-01-03" none]
        "Saúde" ∧
      categoryExpensesOf
        [Transaction.mk "t5" TxKind.expense "Saúde" "d" 90 false "2024-01-03" none]
        "Saúde" < 100 ∧
      (0.01 : ℚ) ≤ 100 - categoryExpensesOf
        [Transaction.mk "t5" TxKind.expense "Saúde" "d" 90 false "2024-01-03" none]
        "Saúde") ∧
    (categoryBudgetAlertsFor "t0"
        [Transaction.mk "t5" TxKind.expense "Saúde" "d" 90 false "2024-01-03" none]
        (Category.mk "c5" "Saúde" 100 100 "blue")).map (fun n => (n.title, n.type))
      = [("⚠️ Orçamento Quase Esgotado", NotifType.warning)] := by
  refine ⟨⟨by norm_num, by norm_num [categoryExpensesOf], by norm_num [categoryExpensesOf],
    by norm_num [categoryExpensesOf]⟩, ?_⟩
  exact (categoryBudgetAlerts_progressTiers "t0"
    [Transaction.mk "t5" TxKind.expense "Saúde" "d" 90 false "2024-01-03" none]
    (Category.mk "c5" "Saúde" 100 100 "blue")
    (by norm_num) (by norm_num [categoryExpensesOf]) (by norm_num [categoryExpensesOf])
    (by norm_num [categoryExpensesOf])).1 (by norm_num [categoryExpensesOf])

/-! Claim C4: the Food 375-of-500 scenario. The intended 75% notification
never appears because checkCategoryBudgetAlerts divides by the stored
budget field, which the Categories page initializes to 0 (the user limit
lives in maxBudget and is never read by the check). -/

/-- C4: at the scenario state — category Food created by the app with
budget 0 and maxBudget 500, three Food expenses totalling 375 — the call
emits the budget-exceeded error notification (spent 375 against budget 0)
and no 75%-of-budget info notification at all. -/
theorem categoryBudgetAlerts_foodScenario :
    categoryExpensesOf
        [Transaction.mk "t41" TxKind.expense "Food" "a" 100 false "2024-01-01" none,
         Transaction.mk "t42" TxKind.expense "Food" "b" 150 false "2024-01-02" none,
         Transaction.mk "t43" TxKind.expense "Food" "c" 125 false "2024-01-03" none]
        "Food" = 375 ∧
    (Category.mk "c6" "Food" 0 500 "blue").maxBudget = 500 ∧
    (categoryBudgetAlertsFor "t0"
        [Transaction.mk "t41" TxKind.expense "Food" "a" 100 false "2024-01-01" none,
         Transaction.mk "t42" TxKind.expense "Food" "b" 150 false "2024-01-02" none,
         Transaction.mk "t43" TxKind.expense "Food" "c" 125 false "2024-01-03" none]
        (Category.mk "c6" "Food" 0 500 "blue")).map (fun n => (n.title, n.type))
      = [("🚨 Orçamento Excedido!", NotifType.error)] ∧
    countTitle "📊 Orçamento em 75%"
        (categoryBudgetAlertsFor "t0"
          [Transaction.mk "t41" TxKind.expense "Food" "a" 100 false "2024-01-01" none,
           Transaction.mk "t42" TxKind.expense "Food" "b" 150 false "2024-01-02" none,
           Transaction.mk "t43" TxKind.expense "Food" "c" 125 false "2024-01-03" none]
          (Category.mk "c6" "Food" 0 500 "blue")) = 0 := by
  refine ⟨by norm_num [categoryExpensesOf], by norm_num, ?_, ?_⟩ <;>
  · norm_num [categoryBudgetAlertsFor, categoryExpensesOf, jsDiv, JsVal.mul100,
      JsVal.geQ, countTitle]
    all_goals decide

/-! Claims C5 and C6: wish-affordability notifications. -/

/-- The list of achievement notifications one call to
checkWishAchievements appends: the affordable, not-yet-achieved wishes in
order, one notification each. -/
def wishEmitted (now : String) (s : FinState) : List NotifData :=
  (s.wishes.filter fun w =>
    decide (availableBalance s ≥ w.estimatedPrice ∧ w.status ≠ "achieved")).map
    (achievableWishNotif now)

/-- A forEach that conditionally appends one record is the map of the
filter. -/
theorem flatMap_if_singleton {α β : Type} (p : α → Prop) [DecidablePred p]
    (f : α → β) (l : List α) :
    (l.flatMap fun a => if p a then [f a] else [])
      = (l.filter fun a => decide (p a)).map f := by
  induction l with
  | nil => rfl
  | cons x xs ih =>
    by_cases h : p x <;> simp [h, ih]

/-- C5: one call to checkWishAchievements appends exactly one success
notification per wish that is not yet achieved and whose estimated price
is at most the available balance, and nothing for the other wishes;
transactions and wishes are untouched. -/
theorem checkWishAchievements_exactlyAffordable (now : String) (s : FinState) :
    (checkWishAchievements now s).notifications = s.notifications ++ wishEmitted now s ∧
    (∀ w, (achievableWishNotif now w).type = NotifType.success) ∧
    (checkWishAchievements now s).wishes = s.wishes ∧
    (checkWishAchievements now s).transactions = s.transactions := by
  refine ⟨?_, fun w => rfl, rfl, rfl⟩
  simp only [checkWishAchievements, wishEmitted, flatMap_if_singleton]

/-- C6: checkWishAchievements is not idempotent — a second call on the
unchanged transactions and wishes appends the same batch of achievement
notifications again, and the batch is nonempty whenever some wish is not
achieved and affordable. -/
theorem checkWishAchievements_not_idempotent (now : String) (s : FinState) :
    (checkWishAchievements now (checkWishAchievements now s)).notifications
      = s.notifications ++ wishEmitted now s ++ wishEmitted now s ∧
    ((∃ w ∈ s.wishes, w.status ≠ "achieved" ∧ w.estimatedPrice ≤ availableBalance s) →
      wishEmitted now s ≠ []) := by
  constructor
  · simp only [checkWishAchievements, wishEmitted, flatMap_if_singleton,
      availableBalance, getTotalIncomes, getTotalExpenses, List.append_assoc]
  · rintro ⟨w, hw, hst, hle⟩
    have hmem : achievableWishNotif now w ∈ wishEmitted now s := by
      apply List.mem_map_of_mem
      exact List.mem_filter.mpr ⟨hw, by simp [hst, hle, ge_iff_le]⟩
    exact List.ne_nil_of_mem hmem

/-- Witness for C6 on a concrete state with one affordable pending wish
and one income transaction of 100: the double run appends the same
nonempty batch twice. -/
theorem checkWishAchievements_not_idempotent_witness :
    (checkWishAchievements "t0" (checkWishAchievements "t0"
        (FinState.mk [Transaction.mk "ti" TxKind.income "Renda" "d" 100 false
            "2024-01-01" none] [] [] []
          [Wish.mk "w1" "Fone" 50 "Tech" "alta" "pending" "" "" none] [] []))).notifications
      = (FinState.mk [Transaction.mk "ti" TxKind.income "Renda" "d" 100 false
            "2024-01-01" none] [] [] []
          [Wish.mk "w1" "Fone" 50 "Tech" "alta" "pending" "" "" none] [] []).notifications
        ++ wishEmitted "t0" (FinState.mk [Transaction.mk "ti" TxKind.income "Renda" "d"
            100 false "2024-01-01" none] [] [] []
          [Wish.mk "w1" "Fone" 50 "Tech" "alta" "pending" "" "" none] [] [])
        ++ wishEmitted "t0" (FinState.mk [Transaction.mk "ti" TxKind.income "Renda" "d"
            100 false "2024-01-01" none] [] [] []
          [Wish.mk "w1" "Fone" 50 "Tech" "alta" "pending" "" "" none] [] []) ∧
    wishEmitted "t0" (FinState.mk [Transaction.mk "ti" TxKind.income "Renda" "d" 100
          false "2024-01-01" none] [] [] []
        [Wish.mk "w1" "Fone" 50 "Tech" "alta" "pending" "" "" none] [] []) ≠ [] := by
  refine ⟨(checkWishAchievements_not_idempotent "t0" _).1,
    (checkWishAchievements_not_idempotent "t0" _).2 ?_⟩
  refine ⟨Wish.mk "w1" "Fone" 50 "Tech" "alta" "pending" "" "" none,
    List.mem_singleton.mpr rfl, by decide, ?_⟩
  norm_num [availableBalance, getTotalIncomes, getTotalExpenses, txKind_beq_false.1]

/-! Date arithmetic lemmas for the due-date claims. -/

/-- Splitting a year at December: eleven months plus December make the
whole year. -/
theorem daysBeforeMonth_eleven_add (y : Nat) :
    daysBeforeMonth y 11 + daysInMonth y 11 = daysInYear y := by
  cases h : isLeapYear y <;>
    simp [daysBeforeMonth, daysInMonth, daysInYear, h]

/-- Normalized start of the following month: advancing the (0-based) month
index by one moves the month start forward by exactly the current month
length, including the December-to-January rollover. -/
theorem monthStart_succ (y m : Nat) (hm : m < 12) :
    monthStart (y + (m + 1) / 12) ((m + 1) % 12)
      = monthStart y m + daysInMonth y m := by
  rcases Nat.lt_or_ge (m + 1) 12 with h | h
  · rw [Nat.div_eq_of_lt h, Nat.mod_eq_of_lt h]
    simp only [monthStart, daysBeforeMonth, Nat.add_zero]
    omega
  · have hm11 : m = 11 := by omega
    subst hm11
    have h12 : monthStart (y + 1) 0 = daysBeforeYear y + daysInYear y := by
      simp [monthStart, daysBeforeMonth, daysBeforeYear]
    rw [show (11 + 1) / 12 = 1 from rfl, show (11 + 1) % 12 = 0 from rfl, h12,
      monthStart, Nat.add_assoc, daysBeforeMonth_eleven_add]

/-- Ceiling division of an exact whole-day difference reduced by a
sub-day remainder recovers the day count. -/
theorem mathCeilDiv_day (K r : Int) (hr0 : 0 ≤ r) (hr : r < 86400000) :
    mathCeilDiv (K * 86400000 - r) 86400000 = K := by
  unfold mathCeilDiv
  rw [neg_sub, show r - K * 86400000 = r + (-K) * 86400000 by ring,
    Int.fdiv_eq_ediv _ (by norm_num),
    Int.add_mul_ediv_right _ _ (by norm_num),
    Int.ediv_eq_zero_of_lt hr0 hr]
  ring

/-- Closed form of the next-month branch of `daysUntilDue`: days in the
current month, plus the charge day, minus the current day. -/
theorem daysUntilDue_else (today : JsDate) (hWF : today.WF) (D : Nat)
    (h : D < today.day) :
    daysUntilDue today D
      = (daysInMonth today.year today.month : Int) + D - today.day := by
  obtain ⟨hm, h1, h2, h3⟩ := hWF
  unfold daysUntilDue
  rw [if_neg (by omega)]
  show mathCeilDiv (jsDateValue today.year (today.month + 1) D - today.getTime)
    (1000 * 60 * 60 * 24) = _
  have key : jsDateValue today.year (today.month + 1) D - today.getTime
      = ((daysInMonth today.year today.month : Int) + D - today.day) * 86400000
        - today.msOfDay := by
    unfold jsDateValue JsDate.getTime msPerDay
    rw [monthStart_succ today.year today.month hm]
    push_cast [Nat.cast_sub h1]
    ring
  rw [key, show (1000 * 60 * 60 * 24 : Int) = 86400000 by norm_num]
  exact mathCeilDiv_day _ _ (by positivity) (by exact_mod_cast h3)

/-- The due-day count is never negative on a well-formed date. -/
theorem daysUntilDue_nonneg (today : JsDate) (hWF : today.WF) (D : Nat) :
    0 ≤ daysUntilDue today D := by
  rcases le_or_lt today.day D with h | h
  · unfold daysUntilDue
    rw [if_pos h]
    omega
  · rw [daysUntilDue_else today hWF D h]
    obtain ⟨hm, h1, h2, h3⟩ := hWF
    omega

/-- Counting a title distributes over concatenation. -/
theorem countTitle_append (t : String) (l1 l2 : List NotifData) :
    countTitle t (l1 ++ l2) = countTitle t l1 + countTitle t l2 := by
  simp [countTitle, List.filter_append]

/-- A flatMap contributes no occurrences of a title that no piece
contains. -/
theorem countTitle_flatMap_zero {α : Type} (t : String) (f : α → List NotifData)
    (l : List α) (h : ∀ x, countTitle t (f x) = 0) :
    countTitle t (l.flatMap f) = 0 := by
  induction l with
  | nil => rfl
  | cons x xs ih => simp [List.flatMap_cons, countTitle_append, h, ih]

/-- The overdue reminder is never among the notifications of one expense
on a well-formed date. -/
theorem dueNotifsFor_no_overdue (now : String) (today : JsDate)
    (hWF : today.WF) (e : MonthlyExpense) :
    countTitle "🔴 Despesa Mensal Vencida!" (dueNotifsFor now today e) = 0 := by
  have hd : daysUntilDue today e.dayOfMonth ≠ -1 := by
    have := daysUntilDue_nonneg today hWF e.dayOfMonth
    omega
  unfold dueNotifsFor
  rw [countTitle_append, countTitle_append, countTitle_append]
  rw [if_neg hd]
  by_cases h7 : daysUntilDue today e.dayOfMonth = 7 <;>
    by_cases h3 : daysUntilDue today e.dayOfMonth = 3 <;>
    by_cases h0 : daysUntilDue today e.dayOfMonth = 0 <;>
    simp [h7, h3, h0, countTitle]

/-! Claim C9: the overdue branch of checkMonthlyExpenseDueDates is dead. -/

/-- C9: on any well-formed current date, `daysUntilDue` is nonnegative for
every expense, so the `daysUntilDue === -1` branch is unreachable: one call
to checkMonthlyExpenseDueDates never adds an overdue notification to any
state. -/
theorem checkMonthlyExpenseDueDates_no_overdue (now : String) (today : JsDate)
    (hWF : today.WF) (s : FinState) :
    (∀ e : MonthlyExpense, 0 ≤ daysUntilDue today e.dayOfMonth) ∧
    (∀ e : MonthlyExpense,
      countTitle "🔴 Despesa Mensal Vencida!" (dueNotifsFor now today e) = 0) ∧
    countTitle "🔴 Despesa Mensal Vencida!"
        (checkMonthlyExpenseDueDates now today s).notifications
      = countTitle "🔴 Despesa Mensal Vencida!" s.notifications := by
  refine ⟨fun e => daysUntilDue_nonneg today hWF _,
    fun e => dueNotifsFor_no_overdue now today hWF e, ?_⟩
  simp only [checkMonthlyExpenseDueDates]
  rw [countTitle_append,
    countTitle_flatMap_zero _ _ _ (fun e => dueNotifsFor_no_overdue now today hWF e)]
  omega

/-- Witness for C9 on January 5 with an active expense charged on day 2
(the next-month branch of the computation). -/
theorem checkMonthlyExpenseDueDates_no_overdue_witness :
    (JsDate.mk 0 0 5 0).WF ∧
    0 ≤ daysUntilDue (JsDate.mk 0 0 5 0)
      (MonthlyExpense.mk "e9" "Internet" 90 2 "" true).dayOfMonth ∧
    countTitle "🔴 Despesa Mensal Vencida!"
      (dueNotifsFor "t0" (JsDate.mk 0 0 5 0)
        (MonthlyExpense.mk "e9" "Internet" 90 2 "" true)) = 0 := by
  refine ⟨by decide, ?_, ?_⟩
  · exact (checkMonthlyExpenseDueDates_no_overdue "t0" (JsDate.mk 0 0 5 0) (by decide)
      (FinState.mk [] [] [] [] [] [] [])).1 (MonthlyExpense.mk "e9" "Internet" 90 2 "" true)
  · exact (checkMonthlyExpenseDueDates_no_overdue "t0" (JsDate.mk 0 0 5 0) (by decide)
      (FinState.mk [] [] [] [] [] [] [])).2.1 (MonthlyExpense.mk "e9" "Internet" 90 2 "" true)

/-! Claim C1: due-date reminders. The claim expects an overdue reminder one
day after the charge day; on that date the code takes the next-month branch
(about a month until the next occurrence) and emits nothing, so the claim
is refuted and amended to the three live tiers 7 / 3 / 0. -/

/-- C1 counterexample: on day 11 with charge day 10 (one day after the due
day), `daysUntilDue` is 30 — not -1 — and the call emits no notification
at all, where the claim requires exactly one overdue reminder. -/
theorem dueDateReminder_overdue_counterexample :
    (JsDate.mk 0 0 11 0).WF ∧
    daysUntilDue (JsDate.mk 0 0 11 0) 10 = 30 ∧
    dueNotifsFor "t0" (JsDate.mk 0 0 11 0)
      (MonthlyExpense.mk "e1" "Netflix" 50 10 "" true) = [] ∧
    (checkMonthlyExpenseDueDates "t0" (JsDate.mk 0 0 11 0)
      (FinState.mk [] [] [MonthlyExpense.mk "e1" "Netflix" 50 10 "" true]
        [] [] [] [])).notifications = [] := by
  refine ⟨by decide, by decide, by decide, ?_⟩
  show [] ++ _ = ([] : List NotifData)
  decide

/-- C1 (amended): for every active recurring expense on a well-formed
date, one call emits exactly one 7-day reminder when the due count is 7,
exactly one 3-day reminder when it is 3, exactly one due-today reminder
when it is 0, and nothing otherwise; the count is never -1, so no overdue
reminder is ever produced. -/
theorem dueDateReminder_tiers (now : String) (today : JsDate) (hWF : today.WF)
    (e : MonthlyExpense) :
    countTitle "📅 Despesa Mensal Vencendo em 7 Dias" (dueNotifsFor now today e)
      = (if daysUntilDue today e.dayOfMonth = 7 then 1 else 0) ∧
    countTitle "⚠️ Despesa Mensal Vencendo em 3 Dias" (dueNotifsFor now today e)
      = (if daysUntilDue today e.dayOfMonth = 3 then 1 else 0) ∧
    countTitle "🚨 Despesa Mensal Vence Hoje!" (dueNotifsFor now today e)
      = (if daysUntilDue today e.dayOfMonth = 0 then 1 else 0) ∧
    countTitle "🔴 Despesa Mensal Vencida!" (dueNotifsFor now today e) = 0 ∧
    (dueNotifsFor now today e).length
      = (if daysUntilDue today e.dayOfMonth = 7 then 1 else 0)
        + (if daysUntilDue today e.dayOfMonth = 3 then 1 else 0)
        + (if daysUntilDue today e.dayOfMonth = 0 then 1 else 0) := by
  have hov := dueNotifsFor_no_overdue now today hWF e
  have hd := daysUntilDue_nonneg today hWF e.dayOfMonth
  have hne : daysUntilDue today e.dayOfMonth ≠ -1 := by omega
  refine ⟨?_, ?_, ?_, hov, ?_⟩ <;>
    rcases (show daysUntilDue today e.dayOfMonth = 7 ∨
        daysUntilDue today e.dayOfMonth = 3 ∨ daysUntilDue today e.dayOfMonth = 0 ∨
        (daysUntilDue today e.dayOfMonth ≠ 7 ∧ daysUntilDue today e.dayOfMonth ≠ 3 ∧
          daysUntilDue today e.dayOfMonth ≠ 0) by omega) with h | h | h | ⟨h7, h3, h0⟩ <;>
    unfold dueNotifsFor <;>
    first
      | simp [h, hne, countTitle]
      | simp [h7, h3, h0, hne, countTitle]

/-- Witness for C1 amended: seven days before charge day 10, exactly one
7-day reminder and no overdue reminder. -/
theorem dueDateReminder_tiers_witness :
    (JsDate.mk 0 0 3 0).WF ∧
    countTitle "📅 Despesa Mensal Vencendo em 7 Dias"
      (dueNotifsFor "t0" (JsDate.mk 0 0 3 0)
        (MonthlyExpense.mk "e2" "Spotify" 20 10 "" true)) = 1 ∧
    countTitle "🔴 Despesa Mensal Vencida!"
      (dueNotifsFor "t0" (JsDate.mk 0 0 3 0)
        (MonthlyExpense.mk "e2" "Spotify" 20 10 "" true)) = 0 := by
  refine ⟨by decide, ?_, ?_⟩
  · have h := (dueDateReminder_tiers "t0" (JsDate.mk 0 0 3 0) (by decide)
      (MonthlyExpense.mk "e2" "Spotify" 20 10 "" true)).1
    rw [show daysUntilDue (JsDate.mk 0 0 3 0)
        (MonthlyExpense.mk "e2" "Spotify" 20 10 "" true).dayOfMonth = 7 from by decide] at h
    simpa using h
  · exact (dueDateReminder_tiers "t0" (JsDate.mk 0 0 3 0) (by decide)
      (MonthlyExpense.mk "e2" "Spotify" 20 10 "" true)).2.2.2.1

/-! Claim C7: save/load round trips through the fallback store. -/

/-- Reading back the key just written returns the written document. -/
theorem getItem_setItem (store : Store) (key : String) (v : Json) :
    getItem (setItem store key v) key = some v := by
  simp [getItem, setItem, lookupField]

/-- `loadFromStorage` right after `saveToStorage` of the same key. -/
theorem loadFromStorage_save (store : Store) (key : String) (v d : Json) :
    loadFromStorage (saveToStorage store key v) key d = v := by
  simp [loadFromStorage, saveToStorage, getItem_setItem]

/-- A serialized `Transaction` decodes to itself. -/
theorem decodeTransaction_encode (t : Transaction) :
    decodeTransaction (encodeTransaction t) = some t := by
  rcases t with ⟨id, ty, c, d, a, f, dt, n⟩
  cases ty <;> cases n <;> rfl

/-- A natural-number field survives the JSON number representation. -/
theorem natFromQ_natCast (n : Nat) : natFromQ (n : ℚ) = some n := by
  simp [natFromQ, Rat.num_natCast, Rat.den_natCast, Int.toNat_natCast]

/-- A serialized `MonthlyIncome` decodes to itself. -/
theorem decodeMonthlyIncome_encode (i : MonthlyIncome) :
    decodeMonthlyIncome (encodeMonthlyIncome i) = some i := by
  rcases i with ⟨id, nm, am, d, act⟩
  simp [encodeMonthlyIncome, decodeMonthlyIncome, natFromQ_natCast]

/-- A serialized `MonthlyExpense` decodes to itself. -/
theorem decodeMonthlyExpense_encode (e : MonthlyExpense) :
    decodeMonthlyExpense (encodeMonthlyExpense e) = some e := by
  rcases e with ⟨id, nm, am, d, cl, act⟩
  simp [encodeMonthlyExpense, decodeMonthlyExpense, natFromQ_natCast]

/-- A serialized `Category` decodes to itself. -/
theorem decodeCategory_encode (c : Category) :
    decodeCategory (encodeCategory c) = some c := by
  rcases c with ⟨id, nm, b, mb, col⟩
  rfl

/-- A serialized `Wish` decodes to itself. -/
theorem decodeWish_encode (w : Wish) : decodeWish (encodeWish w) = some w := by
  rcases w with ⟨id, nm, ep, cat, pr, st, td, pl, n⟩
  cases n <;> rfl

/-- A serialized `Notification` decodes to itself. -/
theorem decodeNotification_encode (n : Notification) :
    decodeNotification (encodeNotification n) = some n := by
  rcases n with ⟨id, ti, msg, ty, ts, rd⟩
  cases ty <;> rfl

/-- A serialized `ShoppingItem` decodes to itself. -/
theorem decodeShoppingItem_encode (s : ShoppingItem) :
    decodeShoppingItem (encodeShoppingItem s) = some s := by
  rcases s with ⟨id, nm, pr, pu, ca⟩
  rfl

/-- Decoding an encoded collection recovers the collection. -/
theorem filterMap_decode_encode {α : Type} (enc : α → Json) (dec : Json → Option α)
    (h : ∀ a, dec (enc a) = some a) (l : List α) :
    (l.map enc).filterMap dec = l := by
  induction l with
  | nil => rfl
  | cons x xs ih => simp [h, ih]

/-- The migration leaves a record whose `dayOfMonth` is not falsy
unchanged. -/
theorem migrate_encodeMonthlyIncome (defaultDay : ℚ) (i : MonthlyIncome)
    (h : i.dayOfMonth ≠ 0) :
    migrateDayOfMonth defaultDay (encodeMonthlyIncome i) = encodeMonthlyIncome i := by
  have hq : ((i.dayOfMonth : ℚ) == 0) = false := by
    simp [Nat.cast_eq_zero, h]
  simp [migrateDayOfMonth, encodeMonthlyIncome, lookupField, jsonFalsy, hq]

/-- The migration leaves an expense whose `dayOfMonth` is not falsy
unchanged. -/
theorem migrate_encodeMonthlyExpense (defaultDay : ℚ) (e : MonthlyExpense)
    (h : e.dayOfMonth ≠ 0) :
    migrateDayOfMonth defaultDay (encodeMonthlyExpense e) = encodeMonthlyExpense e := by
  have hq : ((e.dayOfMonth : ℚ) == 0) = false := by
    simp [Nat.cast_eq_zero, h]
  simp [migrateDayOfMonth, encodeMonthlyExpense, lookupField, jsonFalsy, hq]

/-- Round trip for monthly incomes whose charge days are not falsy. -/
theorem loadMonthlyIncomes_save (store : Store) (mis : List MonthlyIncome)
    (hmi : ∀ i ∈ mis, i.dayOfMonth ≠ 0) :
    loadMonthlyIncomes (saveMonthlyIncomes store mis) = mis := by
  unfold loadMonthlyIncomes saveMonthlyIncomes
  rw [loadFromStorage_save]
  show ((mis.map encodeMonthlyIncome).map (migrateDayOfMonth 5)).filterMap
    decodeMonthlyIncome = mis
  rw [List.map_map,
    show List.map (migrateDayOfMonth 5 ∘ encodeMonthlyIncome) mis
        = List.map encodeMonthlyIncome mis from
      List.map_congr_left fun i hi => migrate_encodeMonthlyIncome 5 i (hmi i hi)]
  exact filterMap_decode_encode _ _ decodeMonthlyIncome_encode mis

/-- Round trip for monthly expenses whose charge days are not falsy. -/
theorem loadMonthlyExpenses_save (store : Store) (mes : List MonthlyExpense)
    (hme : ∀ e ∈ mes, e.dayOfMonth ≠ 0) :
    loadMonthlyExpenses (saveMonthlyExpenses store mes) = mes := by
  unfold loadMonthlyExpenses saveMonthlyExpenses
  rw [loadFromStorage_save]
  show ((mes.map encodeMonthlyExpense).map (migrateDayOfMonth 15)).filterMap
    decodeMonthlyExpense = mes
  rw [List.map_map,
    show List.map (migrateDayOfMonth 15 ∘ encodeMonthlyExpense) mes
        = List.map encodeMonthlyExpense mes from
      List.map_congr_left fun e he => migrate_encodeMonthlyExpense 15 e (hme e he)]
  exact filterMap_decode_encode _ _ decodeMonthlyExpense_encode mes

/-- C7 counterexample: a monthly income whose `dayOfMonth` is 0 — a legal
value of the declared number field, and falsy in JavaScript — is migrated
to day 5 on load, so the round trip returns a different collection. -/
theorem storage_roundTrip_counterexample :
    loadMonthlyIncomes (saveMonthlyIncomes [] [MonthlyIncome.mk "i0" "Bolsa" 10 0 true])
      = [MonthlyIncome.mk "i0" "Bolsa" 10 5 true] ∧
    loadMonthlyIncomes (saveMonthlyIncomes [] [MonthlyIncome.mk "i0" "Bolsa" 10 0 true])
      ≠ [MonthlyIncome.mk "i0" "Bolsa" 10 0 true] := by
  have h : loadMonthlyIncomes
      (saveMonthlyIncomes [] [MonthlyIncome.mk "i0" "Bolsa" 10 0 true])
      = [MonthlyIncome.mk "i0" "Bolsa" 10 5 true] := by
    simp [loadMonthlyIncomes, saveMonthlyIncomes, loadFromStorage_save,
      migrateDayOfMonth, encodeMonthlyIncome, decodeMonthlyIncome, lookupField,
      jsonFalsy, setField, natFromQ]
  refine ⟨h, ?_⟩
  rw [h]
  simp

/-- C7 (amended): saving any collection to the fallback store and
reloading it with the matching load function returns the collection saved,
for all seven entity types — except that a monthly income or monthly
expense whose `dayOfMonth` is falsy (0 or missing) is rewritten to the
default day by the load-time migration; with every `dayOfMonth` nonzero
the round trip is exact. -/
theorem storage_roundTrip (store : Store)
    (ts : List Transaction) (mis : List MonthlyIncome) (mes : List MonthlyExpense)
    (cs : List Category) (ws : List Wish) (ns : List Notification)
    (ss : List ShoppingItem)
    (hmi : ∀ i ∈ mis, i.dayOfMonth ≠ 0) (hme : ∀ e ∈ mes, e.dayOfMonth ≠ 0) :
    loadTransactions (saveTransactions store ts) = ts ∧
    loadMonthlyIncomes (saveMonthlyIncomes store mis) = mis ∧
    loadMonthlyExpenses (saveMonthlyExpenses store mes) = mes ∧
    loadCategories (saveCategories store cs) = cs ∧
    loadWishes (saveWishes store ws) = ws ∧
    loadNotifications (saveNotifications store ns) = ns ∧
    loadShoppingList (saveShoppingList store ss) = ss := by
  refine ⟨?_, ?_, ?_, ?_, ?_, ?_, ?_⟩
  · unfold loadTransactions saveTransactions
    rw [loadFromStorage_save]
    exact filterMap_decode_encode _ _ decodeTransaction_encode ts
  · exact loadMonthlyIncomes_save store mis hmi
  · exact loadMonthlyExpenses_save store mes hme
  · unfold loadCategories saveCategories
    rw [loadFromStorage_save]
    exact filterMap_decode_encode _ _ decodeCategory_encode cs
  · unfold loadWishes saveWishes
    rw [loadFromStorage_save]
    exact filterMap_decode_encode _ _ decodeWish_encode ws
  · unfold loadNotifications saveNotifications
    rw [loadFromStorage_save]
    exact filterMap_decode_encode _ _ decodeNotification_encode ns
  · unfold loadShoppingList saveShoppingList
    rw [loadFromStorage_save]
    exact filterMap_decode_encode _ _ decodeShoppingItem_encode ss

/-- Witness for C7 on singleton collections of every type with nonzero
charge days. -/
theorem storage_roundTrip_witness :
    (∀ i ∈ [MonthlyIncome.mk "mi" "Salário" 3000 5 true], i.dayOfMonth ≠ 0) ∧
    (∀ e ∈ [MonthlyExpense.mk "me" "Internet" 90 15 "" true], e.dayOfMonth ≠ 0) ∧
    (loadTransactions (saveTransactions []
        [Transaction.mk "tx" TxKind.expense "Food" "d" 10 false "2024-01-01" none])
      = [Transaction.mk "tx" TxKind.expense "Food" "d" 10 false "2024-01-01" none] ∧
    loadMonthlyIncomes (saveMonthlyIncomes [] [MonthlyIncome.mk "mi" "Salário" 3000 5 true])
      = [MonthlyIncome.mk "mi" "Salário" 3000 5 true] ∧
    loadMonthlyExpenses (saveMonthlyExpenses []
        [MonthlyExpense.mk "me" "Internet" 90 15 "" true])
      = [MonthlyExpense.mk "me" "Internet" 90 15 "" true] ∧
    loadCategories (saveCategories [] [Category.mk "c" "Food" 0 500 "blue"])
      = [Category.mk "c" "Food" 0 500 "blue"] ∧
    loadWishes (saveWishes [] [Wish.mk "w" "Fone" 50 "Tech" "alta" "pending" "" "" none])
      = [Wish.mk "w" "Fone" 50 "Tech" "alta" "pending" "" "" none] ∧
    loadNotifications (saveNotifications []
        [Notification.mk "n" "Oi" "Msg" NotifType.info "t0" false])
      = [Notification.mk "n" "Oi" "Msg" NotifType.info "t0" false] ∧
    loadShoppingList (saveShoppingList [] [ShoppingItem.mk "s" "Pão" 5 false "t0"])
      = [ShoppingItem.mk "s" "Pão" 5 false "t0"]) := by
  refine ⟨by decide, by decide, ?_⟩
  exact storage_roundTrip []
    [Transaction.mk "tx" TxKind.expense "Food" "d" 10 false "2024-01-01" none]
    [MonthlyIncome.mk "mi" "Salário" 3000 5 true]
    [MonthlyExpense.mk "me" "Internet" 90 15 "" true]
    [Category.mk "c" "Food" 0 500 "blue"]
    [Wish.mk "w" "Fone" 50 "Tech" "alta" "pending" "" "" none]
    [Notification.mk "n" "Oi" "Msg" NotifType.info "t0" false]
    [ShoppingItem.mk "s" "Pão" 5 false "t0"]
    (by decide) (by decide)

/-! Claim C8: the localStorage fallback of the persistence facade. Only
the six monthly income/expense mutations have a fallback; the other
entity mutations warn-and-return (or propagate the rejection) without
touching local storage. -/

/-- A cloud failure means Firebase never initialized or the call throws. -/
def cloudFails (env : FirebaseEnv) : Prop :=
  env.isFirebaseAvailable = false ∨ env.dbInit = false ∨ env.cloudThrows = true

/-- Under a cloud failure, adding a monthly income replays the push
against localStorage and dispatches the change event. -/
theorem fbAddMonthlyIncome_fallback (env : FirebaseEnv) (hfail : cloudFails env)
    (st : Store) (cloud : List MonthlyIncome) (newIncome : MonthlyIncome) :
    fbAddMonthlyIncome env st cloud newIncome
      = ⟨saveMonthlyIncomes st (loadMonthlyIncomes st ++ [newIncome]), cloud,
          ["finances-monthly-incomes"], false⟩ := by
  obtain ⟨av, db, th⟩ := env
  cases av <;> cases db <;> cases th <;>
    simp [fbAddMonthlyIncome] <;> simp [cloudFails] at hfail

/-- Under a cloud failure, adding a monthly expense replays the push
against localStorage and dispatches the change event. -/
theorem fbAddMonthlyExpense_fallback (env : FirebaseEnv) (hfail : cloudFails env)
    (st : Store) (cloud : List MonthlyExpense) (newExpense : MonthlyExpense) :
    fbAddMonthlyExpense env st cloud newExpense
      = ⟨saveMonthlyExpenses st (loadMonthlyExpenses st ++ [newExpense]), cloud,
          ["finances-monthly-expenses"], false⟩ := by
  obtain ⟨av, db, th⟩ := env
  cases av <;> cases db <;> cases th <;>
    simp [fbAddMonthlyExpense] <;> simp [cloudFails] at hfail

/-- Under a cloud failure, updating a monthly income replays the patch
against localStorage (saving and dispatching only when the id exists). -/
theorem fbUpdateMonthlyIncome_fallback (env : FirebaseEnv) (hfail : cloudFails env)
    (st : Store) (cloud : List MonthlyIncome) (id : String) (data : MonthlyIncomePatch) :
    fbUpdateMonthlyIncome env st cloud id data
      = ⟨(localUpdateMonthlyIncome st id data).1, cloud,
          (localUpdateMonthlyIncome st id data).2, false⟩ := by
  obtain ⟨av, db, th⟩ := env
  cases av <;> cases db <;> cases th <;>
    simp [fbUpdateMonthlyIncome] <;> simp [cloudFails] at hfail

/-- Under a cloud failure, updating a monthly expense replays the patch
against localStorage. -/
theorem fbUpdateMonthlyExpense_fallback (env : FirebaseEnv) (hfail : cloudFails env)
    (st : Store) (cloud : List MonthlyExpense) (id : String) (data : MonthlyExpensePatch) :
    fbUpdateMonthlyExpense env st cloud id data
      = ⟨(localUpdateMonthlyExpense st id data).1, cloud,
          (localUpdateMonthlyExpense st id data).2, false⟩ := by
  obtain ⟨av, db, th⟩ := env
  cases av <;> cases db <;> cases th <;>
    simp [fbUpdateMonthlyExpense] <;> simp [cloudFails] at hfail

/-- Under a cloud failure, deleting a monthly income replays the filter
against localStorage and dispatches the change event. -/
theorem fbDeleteMonthlyIncome_fallback (env : FirebaseEnv) (hfail : cloudFails env)
    (st : Store) (cloud : List MonthlyIncome) (id : String) :
    fbDeleteMonthlyIncome env st cloud id
      = ⟨saveMonthlyIncomes st ((loadMonthlyIncomes st).filter fun i => i.id != id),
          cloud, ["finances-monthly-incomes"], false⟩ := by
  obtain ⟨av, db, th⟩ := env
  cases av <;> cases db <;> cases th <;>
    simp [fbDeleteMonthlyIncome] <;> simp [cloudFails] at hfail

/-- Under a cloud failure, deleting a monthly expense replays the filter
against localStorage and dispatches the change event. -/
theorem fbDeleteMonthlyExpense_fallback (env : FirebaseEnv) (hfail : cloudFails env)
    (st : Store) (cloud : List MonthlyExpense) (id : String) :
    fbDeleteMonthlyExpense env st cloud id
      = ⟨saveMonthlyExpenses st ((loadMonthlyExpenses st).filter fun e => e.id != id),
          cloud, ["finances-monthly-expenses"], false⟩ := by
  obtain ⟨av, db, th⟩ := env
  cases av <;> cases db <;> cases th <;>
    simp [fbDeleteMonthlyExpense] <;> simp [cloudFails] at hfail

/-- C8 counterexample: with the cloud client never initialized, the
facade's addTransaction leaves the local fallback store untouched and
raises no change event — the mutation is lost, where the claim requires it
to be recorded in local storage. -/
theorem facade_fallback_counterexample :
    (FirebaseEnv.mk false false false).dbInit = false ∧
    (fbAddTransaction (FirebaseEnv.mk false false false) [] []
        (Transaction.mk "tx" TxKind.expense "Food" "d" 10 false "2024-01-01"
          none)).localStore = [] ∧
    (fbAddTransaction (FirebaseEnv.mk false false false) [] []
        (Transaction.mk "tx" TxKind.expense "Food" "d" 10 false "2024-01-01"
          none)).events = [] ∧
    loadTransactions ((fbAddTransaction (FirebaseEnv.mk false false false) [] []
        (Transaction.mk "tx" TxKind.expense "Food" "d" 10 false "2024-01-01"
          none)).localStore) = [] :=
  ⟨rfl, rfl, rfl, rfl⟩

/-- C8 (amended): when the cloud client was never initialized or the cloud
call throws, the six monthly income/expense mutations — and only those —
replay the same mutation against browser-local storage and raise a local
change event (an update only when the target id exists), so their effect is
recorded in the fallback store; the other entity mutations, here
addTransaction, leave local storage untouched and raise no event in every
environment. -/
theorem facade_fallback (env : FirebaseEnv) (st : Store) (hfail : cloudFails env) :
    (∀ (cloud : List MonthlyIncome) (newIncome : MonthlyIncome),
      (fbAddMonthlyIncome env st cloud newIncome).localStore
          = saveMonthlyIncomes st (loadMonthlyIncomes st ++ [newIncome]) ∧
      (fbAddMonthlyIncome env st cloud newIncome).events
          = ["finances-monthly-incomes"] ∧
      (fbAddMonthlyIncome env st cloud newIncome).cloud = cloud ∧
      (newIncome.dayOfMonth ≠ 0 → (∀ i ∈ loadMonthlyIncomes st, i.dayOfMonth ≠ 0) →
        loadMonthlyIncomes ((fbAddMonthlyIncome env st cloud newIncome).localStore)
          = loadMonthlyIncomes st ++ [newIncome])) ∧
    (∀ (cloud : List MonthlyExpense) (newExpense : MonthlyExpense),
      (fbAddMonthlyExpense env st cloud newExpense).localStore
          = saveMonthlyExpenses st (loadMonthlyExpenses st ++ [newExpense]) ∧
      (fbAddMonthlyExpense env st cloud newExpense).events
          = ["finances-monthly-expenses"] ∧
      (fbAddMonthlyExpense env st cloud newExpense).cloud = cloud ∧
      (newExpense.dayOfMonth ≠ 0 → (∀ e ∈ loadMonthlyExpenses st, e.dayOfMonth ≠ 0) →
        loadMonthlyExpenses ((fbAddMonthlyExpense env st cloud newExpense).localStore)
          = loadMonthlyExpenses st ++ [newExpense])) ∧
    (∀ (cloud : List MonthlyIncome) (id : String) (data : MonthlyIncomePatch),
      (fbUpdateMonthlyIncome env st cloud id data).localStore
          = (localUpdateMonthlyIncome st id data).1 ∧
      (fbUpdateMonthlyIncome env st cloud id data).events
          = (localUpdateMonthlyIncome st id data).2 ∧
      (fbUpdateMonthlyIncome env st cloud id data).cloud = cloud) ∧
    (∀ (cloud : List MonthlyExpense) (id : String) (data : MonthlyExpensePatch),
      (fbUpdateMonthlyExpense env st cloud id data).localStore
          = (localUpdateMonthlyExpense st id data).1 ∧
      (fbUpdateMonthlyExpense env st cloud id data).events
          = (localUpdateMonthlyExpense st id data).2 ∧
      (fbUpdateMonthlyExpense env st cloud id data).cloud = cloud) ∧
    (∀ (cloud : List MonthlyIncome) (id : String),
      (fbDeleteMonthlyIncome env st cloud id).localStore
          = saveMonthlyIncomes st ((loadMonthlyIncomes st).filter fun i => i.id != id) ∧
      (fbDeleteMonthlyIncome env st cloud id).events = ["finances-monthly-incomes"] ∧
      (fbDeleteMonthlyIncome env st cloud id).cloud = cloud) ∧
    (∀ (cloud : List MonthlyExpense) (id : String),
      (fbDeleteMonthlyExpense env st cloud id).localStore
          = saveMonthlyExpenses st ((loadMonthlyExpenses st).filter fun e => e.id != id) ∧
      (fbDeleteMonthlyExpense env st cloud id).events = ["finances-monthly-expenses"] ∧
      (fbDeleteMonthlyExpense env st cloud id).cloud = cloud) ∧
    (∀ (env2 : FirebaseEnv) (cloud : List Transaction) (t : Transaction),
      (fbAddTransaction env2 st cloud t).localStore = st ∧
      (fbAddTransaction env2 st cloud t).events = []) := by
  refine ⟨?_, ?_, ?_, ?_, ?_, ?_, ?_⟩
  · intro cloud newIncome
    rw [fbAddMonthlyIncome_fallback env hfail st cloud newIncome]
    refine ⟨rfl, rfl, rfl, fun h1 h2 => ?_⟩
    exact loadMonthlyIncomes_save st _ (by
      intro i hi
      rcases List.mem_append.mp hi with hi | hi
      · exact h2 i hi
      · rw [List.mem_singleton.mp hi]; exact h1)
  · intro cloud newExpense
    rw [fbAddMonthlyExpense_fallback env hfail st cloud newExpense]
    refine ⟨rfl, rfl, rfl, fun h1 h2 => ?_⟩
    exact loadMonthlyExpenses_save st _ (by
      intro e he
      rcases List.mem_append.mp he with he | he
      · exact h2 e he
      · rw [List.mem_singleton.mp he]; exact h1)
  · intro cloud id data
    rw [fbUpdateMonthlyIncome_fallback env hfail st cloud id data]
    exact ⟨rfl, rfl, rfl⟩
  · intro cloud id data
    rw [fbUpdateMonthlyExpense_fallback env hfail st cloud id data]
    exact ⟨rfl, rfl, rfl⟩
  · intro cloud id
    rw [fbDeleteMonthlyIncome_fallback env hfail st cloud id]
    exact ⟨rfl, rfl, rfl⟩
  · intro cloud id
    rw [fbDeleteMonthlyExpense_fallback env hfail st cloud id]
    exact ⟨rfl, rfl, rfl⟩
  · intro env2 cloud t
    obtain ⟨av, db, th⟩ := env2
    cases db <;> cases th <;> simp [fbAddTransaction]

/-- Witness for C8 with the cloud client never initialized, the empty
local store, and a concrete monthly income: the effect lands in the
fallback store. -/
theorem facade_fallback_witness :
    cloudFails (FirebaseEnv.mk false false false) ∧
    (fbAddMonthlyIncome (FirebaseEnv.mk false false false) [] []
        (MonthlyIncome.mk "mi" "Salário" 3000 5 true)).events
      = ["finances-monthly-incomes"] ∧
    loadMonthlyIncomes ((fbAddMonthlyIncome (FirebaseEnv.mk false false false) [] []
        (MonthlyIncome.mk "mi" "Salário" 3000 5 true)).localStore)
      = loadMonthlyIncomes [] ++ [MonthlyIncome.mk "mi" "Salário" 3000 5 true] := by
  refine ⟨Or.inl rfl, ?_, ?_⟩
  · exact ((facade_fallback (FirebaseEnv.mk false false false) [] (Or.inl rfl)).1
      [] (MonthlyIncome.mk "mi" "Salário" 3000 5 true)).2.1
  · exact ((facade_fallback (FirebaseEnv.mk false false false) [] (Or.inl rfl)).1
      [] (MonthlyIncome.mk "mi" "Salário" 3000 5 true)).2.2.2
      (by decide) (by decide)

end Finances
